import Mathlib

set_option maxRecDepth 20000

/-!
Verification development for the InsightAgent marketing-analysis engine.

The Python source is shallowly embedded as follows:
* Python floats are modelled as exact rationals (`ℚ`); decimal literals in the
  source denote the corresponding rationals.  Python ints are modelled as `ℤ`.
* Python dicts are modelled as association lists with first-occurrence lookup
  and in-place-overwrite insertion (`dlookup` / `dictInsert`), matching dict
  semantics for duplicate-free key lists.
* Python strings are Lean `String`s; `str.strip`, `str.replace`, substring
  containment (`in`) and `float(...)` parsing are modelled explicitly on
  character lists (`pyStrip`, `removeAll`, `charsInfix`, `pyFloatOfChars`).
  The `float` parser covers sign / digits / decimal point / exponent; the
  special spellings `inf`/`nan` and digit underscores have no rational
  counterpart and are treated as parse failures.
* Python fixed-point f-string formatting (two or one decimals) is modelled
  by `fmtFixed`, rounding half to even on the rational value; `str(float)`
  is modelled by `floatRepr`, the shortest exact decimal rendering.
-/

/-- Python `None`, numbers and strings as they occur in data rows. -/
inductive Value where
  | num (q : ℚ)
  | int (n : ℤ)
  | str (s : String)
  | null
deriving DecidableEq, Repr

/-- A data row: a Python dict from column name to stored value. -/
abbrev Record := List (String × Value)

/-- First-occurrence lookup in an association list (Python `dict.get`). -/
def dlookup {α : Type} (d : List (String × α)) (k : String) : Option α :=
  match d with
  | [] => Option.none
  | p :: rest => if p.1 == k then some p.2 else dlookup rest k

/-- Python `dict[k] = v`: overwrite in place if the key exists, else append. -/
def dictInsert {α : Type} (d : List (String × α)) (k : String) (v : α) :
    List (String × α) :=
  if d.any (fun p => p.1 == k) then
    d.map (fun p => if p.1 == k then (k, v) else p)
  else d ++ [(k, v)]

/-- Python `dict.update`: insert every pair of `m` into `d` in order. -/
def dictUpdate {α : Type} (d m : List (String × α)) : List (String × α) :=
  m.foldl (fun acc p => dictInsert acc p.1 p.2) d

/-- The whitespace characters stripped by Python `str.strip()`. -/
def pyIsSpace (c : Char) : Bool :=
  c == ' ' || c == '\t' || c == '\n' || c == '\r' || c == '\x0b' || c == '\x0c'

/-- Python `str.strip()` on a character list. -/
def pyStrip (l : List Char) : List Char :=
  ((l.dropWhile pyIsSpace).reverse.dropWhile pyIsSpace).reverse

/-- Python `str.replace(c, "")`: remove every occurrence of the character. -/
def removeAll (c : Char) (l : List Char) : List Char :=
  l.filter (fun a => !(a == c))

/-- The cleaning applied by `_get_value` before `float(...)`:
`value.replace("%", "").replace(",", "").strip()`. -/
def pyClean (s : String) : List Char :=
  pyStrip (removeAll ',' (removeAll '%' s.toList))

/-- Whether `p` is a prefix of `l` (character-by-character). -/
def charsPrefix : List Char → List Char → Bool
  | [], _ => true
  | _ :: _, [] => false
  | a :: as, b :: bs => a == b && charsPrefix as bs

/-- Whether `p` occurs contiguously inside `l`: Python `p in l` on strings. -/
def charsInfix (p : List Char) : List Char → Bool
  | [] => p.isEmpty
  | b :: bs => charsPrefix p (b :: bs) || charsInfix p bs

/-- Python string containment `a in b`. -/
def pySubstr (a b : String) : Bool :=
  charsInfix a.toList b.toList

/-- Numeric value of a digit list, most significant first. -/
def digitsVal (l : List Char) : ℕ :=
  l.foldl (fun a c => a * 10 + (c.toNat - 48)) 0

/-- Unsigned decimal mantissa of a Python float literal: `digits`,
`digits.digits`, `digits.` or `.digits`. -/
def parseDec (cs : List Char) : Option ℚ :=
  let ip := cs.takeWhile Char.isDigit
  let rest := cs.dropWhile Char.isDigit
  match rest with
  | [] => if ip.isEmpty then Option.none else some (digitsVal ip : ℚ)
  | '.' :: fp =>
    if fp.all Char.isDigit && !(ip.isEmpty && fp.isEmpty) then
      some ((digitsVal ip : ℚ) + (digitsVal fp : ℚ) / (10 : ℚ) ^ fp.length)
    else Option.none
  | _ => Option.none

/-- Signed integer exponent of a Python float literal. -/
def parseExp (cs : List Char) : Option ℤ :=
  match cs with
  | '+' :: ds =>
    if ds.isEmpty || !ds.all Char.isDigit then Option.none
    else some (digitsVal ds : ℤ)
  | '-' :: ds =>
    if ds.isEmpty || !ds.all Char.isDigit then Option.none
    else some (-(digitsVal ds : ℤ))
  | ds =>
    if ds.isEmpty || !ds.all Char.isDigit then Option.none
    else some (digitsVal ds : ℤ)

/-- Unsigned Python float literal: mantissa with optional `e`/`E` exponent. -/
def parseUnsignedFloat (cs : List Char) : Option ℚ :=
  let m := cs.takeWhile (fun c => !(c == 'e' || c == 'E'))
  let r := cs.dropWhile (fun c => !(c == 'e' || c == 'E'))
  match r with
  | [] => parseDec m
  | _ :: es =>
    match parseDec m, parseExp es with
    | some q, some e => some (q * (10 : ℚ) ^ e)
    | _, _ => Option.none

/-- Python `float(str)` on an already-stripped character list. -/
def pyFloatOfChars (cs : List Char) : Option ℚ :=
  match cs with
  | '+' :: rest => parseUnsignedFloat rest
  | '-' :: rest => (parseUnsignedFloat rest).map Neg.neg
  | _ => parseUnsignedFloat cs

/-- Floor of a rational as an integer. -/
def ratFloor (q : ℚ) : ℤ := Int.fdiv q.num (q.den : ℤ)

/-- Round a rational to the nearest integer, ties to even (Python rounding). -/
def roundHalfEven (q : ℚ) : ℤ :=
  let f := ratFloor q
  let r := q - (f : ℚ)
  if r < 1 / 2 then f
  else if (1 / 2 : ℚ) < r then f + 1
  else if f % 2 = 0 then f else f + 1

/-- Fixed-point rendering of a nonnegative rational with `prec` decimals. -/
def fmtNN (prec : ℕ) (q : ℚ) : String :=
  let n := (roundHalfEven (q * (10 : ℚ) ^ prec)).toNat
  let ds := Nat.toDigits 10 n
  let ds := if ds.length < prec + 1 then
      List.replicate (prec + 1 - ds.length) '0' ++ ds else ds
  if prec = 0 then String.mk ds
  else String.mk (ds.take (ds.length - prec)) ++ "." ++
    String.mk (ds.drop (ds.length - prec))

/-- Python `f"{q:.<prec>f}"` fixed-point formatting. -/
def fmtFixed (prec : ℕ) (q : ℚ) : String :=
  if q < 0 then "-" ++ fmtNN prec (-q) else fmtNN prec q

/-- Two-decimal formatting, Python `f"{q:.2f}"`. -/
def fmt2 (q : ℚ) : String := fmtFixed 2 q

/-- One-decimal formatting, Python `f"{q:.1f}"`. -/
def fmt1 (q : ℚ) : String := fmtFixed 1 q

/-- Python `int(float)`: truncation toward zero. -/
def pyIntTrunc (q : ℚ) : ℤ :=
  if 0 ≤ q then ratFloor q else -ratFloor (-q)

/-- Shortest exact decimal rendering of a nonnegative rational, modelling
Python `str(float)` for values with a terminating decimal expansion (which
covers every value arising in this development). -/
def floatReprNN (q : ℚ) : String :=
  match (List.range 31).find? (fun m => 10 ^ m % q.den = 0) with
  | some 0 => Int.repr q.num ++ ".0"
  | some m =>
    let scaled := q.num.toNat * ((10 ^ m) / q.den)
    let ds := Nat.toDigits 10 scaled
    let ds := if ds.length < m + 1 then
        List.replicate (m + 1 - ds.length) '0' ++ ds else ds
    String.mk (ds.take (ds.length - m)) ++ "." ++
      String.mk (ds.drop (ds.length - m))
  | Option.none => Int.repr q.num ++ "/" ++ Nat.repr q.den

/-- Python `str(float)` including the sign. -/
def floatRepr (q : ℚ) : String :=
  if q < 0 then "-" ++ floatReprNN (-q) else floatReprNN q

/-- Python `str(value)` for stored row values. -/
def pyStr : Value → String
  | .str s => s
  | .int n => Int.repr n
  | .num q => floatRepr q
  | .null => "None"

/-- The shared `_get_value` helper duplicated verbatim across every agent
class and the graph: `row.get(key, default)`, strings cleaned of `%`, `,`
and surrounding whitespace then parsed as floats (default on failure),
falsy values (missing key, `None`, numeric zero) degrade to the default. -/
def _get_value (row : Record) (key : String) (default : ℚ) : ℚ :=
  match dlookup row key with
  | Option.none => default
  | some v =>
    match v with
    | .str s =>
      match pyFloatOfChars (pyClean s) with
      | some q => q
      | Option.none => default
    | .num q => if q = 0 then default else q
    | .int n => if n = 0 then default else (n : ℚ)
    | .null => default

/-- Python `str(row.get("ad_id", "unknown"))`, as computed in every agent. -/
def adIdOf (row : Record) : String :=
  match dlookup row "ad_id" with
  | some v => pyStr v
  | Option.none => "unknown"

/-- Python `str(row.get("ad_name", "unknown"))` in `decide_status`. -/
def adNameOf (row : Record) : String :=
  match dlookup row "ad_name" with
  | some v => pyStr v
  | Option.none => "unknown"

/-- Ad status recommendation (`schemas.AdStatus`). -/
inductive AdStatus where
  | pause
  | fix
  | test
  | keep
deriving DecidableEq, Repr

/-- Categories of marketing insights (`schemas.InsightCategory`). -/
inductive InsightCategory where
  | roas
  | ctr
  | conversion
  | frequency
  | spend
  | creative
deriving DecidableEq, Repr

/-- Individual insight recommendation (`schemas.InsightRecommendation`).
The `priority` field is kept as its runtime string, matching the dynamic
lookup `priority_order.get(x.priority, 3)` in the aggregation step. -/
structure InsightRecommendation where
  category : InsightCategory
  condition : String
  recommendation : String
  priority : String
  affected_ads : List String
  metrics : List (String × ℚ)
deriving DecidableEq, Repr

/-- Per-ad decision (`schemas.AdInsight`). -/
structure AdInsight where
  ad_id : String
  ad_name : String
  status : AdStatus
  recommendations : List String
  metrics : List (String × ℚ)
  issues : List String
deriving DecidableEq, Repr

namespace ROASAgent

/-- The `if/elif` cascade run by `ROASAgent.analyze` on a single row. -/
def analyzeRow (row : Record) : List InsightRecommendation :=
  let roas := _get_value row "roas" 0
  let spend := _get_value row "spend" 0
  let frequency := _get_value row "frequency" 0
  let ad_id := adIdOf row
  if 1.0 ≤ roas ∧ roas ≤ 2.0 then
    [{ category := .roas,
       condition := "ROAS " ++ fmt2 roas ++ " (1-2 range)",
       recommendation := "Test 2-3 new hooks/thumbnails; rotate in new ad creative; cap frequency to avoid fatigue",
       priority := "high",
       affected_ads := [ad_id],
       metrics := [("roas", roas), ("spend", spend), ("frequency", frequency)] }]
  else if roas < 1.0 ∧ spend > 50 then
    [{ category := .roas,
       condition := "ROAS " ++ fmt2 roas ++ " (unprofitable)",
       recommendation := "Pause immediately or reduce budget by 75%; audit targeting and creative quality",
       priority := "high",
       affected_ads := [ad_id],
       metrics := [("roas", roas), ("spend", spend)] }]
  else if roas > 3.0 then
    [{ category := .roas,
       condition := "ROAS " ++ fmt2 roas ++ " (high performance)",
       recommendation := "Scale budget by 20-30%; create lookalike audiences; duplicate winning creative",
       priority := "medium",
       affected_ads := [ad_id],
       metrics := [("roas", roas), ("spend", spend)] }]
  else []

/-- `ROASAgent.analyze`: one pass over the rows, appending per-row findings. -/
def analyze (data : List Record) : List InsightRecommendation :=
  data.flatMap analyzeRow

end ROASAgent

namespace CTRAgent

/-- The `if/elif` cascade run by `CTRAgent.analyze` on a single row. -/
def analyzeRow (row : Record) : List InsightRecommendation :=
  let ctr := _get_value row "ctr" 0
  let ctr_7d := _get_value row "ctr_7d" 0
  let ctr_prev_7d := _get_value row "ctr_prev_7d" 0
  let ctr_drop := _get_value row "ctr_drop" 0
  let impressions := _get_value row "impressions" 0
  let ad_id := adIdOf row
  if ctr_drop > 30 ∨ (ctr_prev_7d > 0 ∧ ctr_7d < ctr_prev_7d * 0.7) then
    [{ category := .ctr,
       condition := "CTR dropped " ++ fmt1 ctr_drop ++ "% vs previous period",
       recommendation := "Creative fatigue detected; rotate in fresh ad creative; test new angles/hooks",
       priority := "high",
       affected_ads := [ad_id],
       metrics := [("ctr", ctr), ("ctr_7d", ctr_7d), ("ctr_prev_7d", ctr_prev_7d), ("ctr_drop", ctr_drop)] }]
  else if ctr < 1.0 ∧ impressions > 1000 then
    [{ category := .ctr,
       condition := "Low CTR " ++ fmt2 ctr ++ "% with " ++ Int.repr (pyIntTrunc impressions) ++ " impressions",
       recommendation := "Poor creative engagement; test stronger hooks, better visuals, or clearer CTA",
       priority := "high",
       affected_ads := [ad_id],
       metrics := [("ctr", ctr), ("impressions", impressions)] }]
  else if ctr > 3.0 then
    [{ category := .ctr,
       condition := "Strong CTR " ++ fmt2 ctr ++ "%",
       recommendation := "High engagement; scale impressions, create similar variants, analyze winning elements",
       priority := "medium",
       affected_ads := [ad_id],
       metrics := [("ctr", ctr), ("impressions", impressions)] }]
  else []

/-- `CTRAgent.analyze`. -/
def analyze (data : List Record) : List InsightRecommendation :=
  data.flatMap analyzeRow

end CTRAgent

namespace ConversionAgent

/-- The `if/elif` cascade run by `ConversionAgent.analyze` on a single row. -/
def analyzeRow (row : Record) : List InsightRecommendation :=
  let atc_to_purchase := _get_value row "atc_to_purchase" 0
  let ctr := _get_value row "ctr" 0
  let add_to_cart := _get_value row "add_to_cart" 0
  let purchases := _get_value row "purchases" 0
  let ad_id := adIdOf row
  if ctr > 1.5 ∧ atc_to_purchase < 20 ∧ add_to_cart > 10 then
    [{ category := .conversion,
       condition := "CTR " ++ fmt2 ctr ++ "% healthy but ATC→Purchase " ++ fmt1 atc_to_purchase ++ "% < 20%",
       recommendation := "Audit landing page and checkout flow; check for friction, page speed, trust signals; review pricing and shipping",
       priority := "high",
       affected_ads := [ad_id],
       metrics := [("ctr", ctr), ("atc_to_purchase", atc_to_purchase), ("add_to_cart", add_to_cart)] }]
  else if add_to_cart < 5 ∧ ctr > 1.0 then
    [{ category := .conversion,
       condition := "Low cart adds (" ++ Int.repr (pyIntTrunc add_to_cart) ++ ") despite clicks",
       recommendation := "Landing page issue; ensure message match, improve product presentation, add urgency/scarcity",
       priority := "high",
       affected_ads := [ad_id],
       metrics := [("add_to_cart", add_to_cart), ("ctr", ctr)] }]
  else if atc_to_purchase > 30 then
    [{ category := .conversion,
       condition := "Strong ATC→Purchase rate " ++ fmt1 atc_to_purchase ++ "%",
       recommendation := "Excellent conversion funnel; scale traffic to this flow, document winning elements",
       priority := "low",
       affected_ads := [ad_id],
       metrics := [("atc_to_purchase", atc_to_purchase), ("purchases", purchases)] }]
  else []

/-- `ConversionAgent.analyze`. -/
def analyze (data : List Record) : List InsightRecommendation :=
  data.flatMap analyzeRow

end ConversionAgent

namespace FrequencyAgent

/-- The `if/elif` cascade run by `FrequencyAgent.analyze` on a single row. -/
def analyzeRow (row : Record) : List InsightRecommendation :=
  let frequency := _get_value row "frequency" 0
  let ctr := _get_value row "ctr" 0
  let ctr_drop := _get_value row "ctr_drop" 0
  let ad_id := adIdOf row
  if frequency > 3.5 ∧ (ctr_drop > 20 ∨ ctr < 1.0) then
    [{ category := .frequency,
       condition := "Frequency " ++ fmt2 frequency ++ " with performance decline",
       recommendation := "Ad fatigue detected; cap frequency at 3, expand audience, or rotate creative",
       priority := "high",
       affected_ads := [ad_id],
       metrics := [("frequency", frequency), ("ctr", ctr), ("ctr_drop", ctr_drop)] }]
  else if frequency > 5.0 then
    [{ category := .frequency,
       condition := "Very high frequency " ++ fmt2 frequency,
       recommendation := "Audience saturation; expand targeting, add exclusions, or pause for creative refresh",
       priority := "high",
       affected_ads := [ad_id],
       metrics := [("frequency", frequency)] }]
  else []

/-- `FrequencyAgent.analyze`. -/
def analyze (data : List Record) : List InsightRecommendation :=
  data.flatMap analyzeRow

end FrequencyAgent

namespace StatusDecisionAgent

/-- The findings whose `affected_ads` contain this ad's id
(`[i for i in insights if ad_id in i.affected_ads]`). -/
def adInsightsFor (row : Record) (insights : List InsightRecommendation) :
    List InsightRecommendation :=
  insights.filter (fun i => i.affected_ads.contains (adIdOf row))

/-- The six-branch ordered cascade of `decide_status`, returning the status,
the recommendations populated by the matched branch, and the issues. -/
def cascade (roas ctr spend frequency : ℚ)
    (ad_insights : List InsightRecommendation) :
    AdStatus × List String × List String :=
  let high_priority_issues := ad_insights.filter (fun i => i.priority == "high")
  if roas < 1.0 ∧ spend > 50 then
    (.pause, [], ["Unprofitable: ROAS " ++ fmt2 roas])
  else if frequency > 5.0 ∧ ctr < 0.5 then
    (.pause, [], ["Severe fatigue: Frequency " ++ fmt2 frequency ++ ", CTR " ++ fmt2 ctr ++ "%"])
  else if 2 ≤ high_priority_issues.length then
    (.fix, high_priority_issues.map (fun i => i.recommendation),
      high_priority_issues.map (fun i => i.condition))
  else if (1.0 ≤ roas ∧ roas ≤ 2.5) ∨ (ctr > 2.0 ∧ roas < 2.0) then
    (.test, ad_insights.map (fun i => i.recommendation), [])
  else if roas > 2.5 ∧ ctr > 1.5 then
    (.keep, ["Continue monitoring; performing well"], [])
  else
    (.keep, [], [])

/-- `StatusDecisionAgent.decide_status`: run the cascade, default empty
recommendations to the first three matched findings' recommendations, and
truncate to at most five entries. -/
def decide_status (row : Record) (insights : List InsightRecommendation) :
    AdInsight :=
  let ad_insights := adInsightsFor row insights
  let roas := _get_value row "roas" 0
  let ctr := _get_value row "ctr" 0
  let spend := _get_value row "spend" 0
  let frequency := _get_value row "frequency" 0
  let c := cascade roas ctr spend frequency ad_insights
  let recommendations :=
    if c.2.1 = [] then (ad_insights.take 3).map (fun i => i.recommendation)
    else c.2.1
  { ad_id := adIdOf row,
    ad_name := adNameOf row,
    status := c.1,
    recommendations := recommendations.take 5,
    metrics := [("roas", roas), ("ctr", ctr), ("spend", spend), ("frequency", frequency)],
    issues := c.2.2 }

end StatusDecisionAgent

namespace InsightGraph

/-- Priority rank used by the aggregation sort:
`priority_order.get(x.priority, 3)` with `{"high": 0, "medium": 1, "low": 2}`. -/
def rank (i : InsightRecommendation) : ℕ :=
  if i.priority = "high" then 0
  else if i.priority = "medium" then 1
  else if i.priority = "low" then 2
  else 3

/-- Stable insertion into a rank-sorted list: the new element goes after every
element of strictly smaller rank and before the first element of rank at
least its own, so elements of equal rank keep their original order. -/
def insertRanked (a : InsightRecommendation) :
    List InsightRecommendation → List InsightRecommendation
  | [] => [a]
  | b :: bs => if rank b < rank a then b :: insertRanked a bs else a :: b :: bs

/-- Python `list.sort(key=...)` is a stable sort by key; it is modelled by
stable insertion sort on the priority rank. -/
def sortByPriority : List InsightRecommendation → List InsightRecommendation
  | [] => []
  | a :: as => insertRanked a (sortByPriority as)

/-- The finding-merge half of `InsightGraph._aggregate_insights`: concatenate
the four analyzers' outputs in the fixed order ROAS, CTR, Conversion,
Frequency, then stable-sort by priority rank. -/
def all_insights (roas_insights ctr_insights conversion_insights
    frequency_insights : List InsightRecommendation) :
    List InsightRecommendation :=
  sortByPriority (roas_insights ++ ctr_insights ++ conversion_insights ++
    frequency_insights)

/-- Account-level metrics computed by `InsightGraph._aggregate_insights`. -/
structure MetricsOverview where
  total_spend : ℚ
  total_revenue : ℚ
  overall_roas : ℚ
  total_purchases : ℚ
  total_clicks : ℚ
  total_impressions : ℚ
  overall_ctr : ℚ
  total_ads : ℕ
deriving DecidableEq, Repr

/-- The metrics half of `InsightGraph._aggregate_insights`. -/
def metrics_overview (data : List Record) : MetricsOverview :=
  let total_spend := (data.map (fun row => _get_value row "spend" 0)).sum
  let total_revenue := (data.map (fun row => _get_value row "purchase_value" 0)).sum
  let total_purchases := (data.map (fun row => _get_value row "purchases" 0)).sum
  let total_clicks := (data.map (fun row => _get_value row "clicks" 0)).sum
  let total_impressions := (data.map (fun row => _get_value row "impressions" 0)).sum
  { total_spend := total_spend,
    total_revenue := total_revenue,
    overall_roas := if total_spend > 0 then total_revenue / total_spend else 0,
    total_purchases := total_purchases,
    total_clicks := total_clicks,
    total_impressions := total_impressions,
    overall_ctr :=
      if total_impressions > 0 then total_clicks / total_impressions * 100 else 0,
    total_ads := data.length }

end InsightGraph

namespace ColumnMapper

/-- `ColumnMapper.STANDARD_COLUMNS` with its Python dict insertion order. -/
def STANDARD_COLUMNS : List (String × List String) :=
  [("campaign_name", ["campaign name", "campaign", "campaign_name"]),
   ("ad_set_name", ["ad set name", "ad set", "adset", "ad_set_name"]),
   ("ad_name", ["ad name", "ad", "ad_name", "creative name"]),
   ("ad_id", ["ad id", "ad_id", "adid", "creative id"]),
   ("spend", ["spend", "cost", "amount spent", "budget spent"]),
   ("impressions", ["impressions", "impr", "views"]),
   ("clicks", ["clicks", "link clicks", "click"]),
   ("ctr", ["ctr", "ctr %", "click through rate", "clickthrough rate"]),
   ("frequency", ["frequency", "freq", "avg frequency"]),
   ("roas", ["roas", "return on ad spend", "roi"]),
   ("purchases", ["purchases", "conversions", "sales", "purchase"]),
   ("purchase_value", ["purchase value", "revenue", "conversion value", "sales value"]),
   ("add_to_cart", ["adds to cart", "add to cart", "atc", "cart adds"]),
   ("atc_to_purchase", ["atc→purchase %", "atc to purchase", "cart to purchase", "conversion rate"]),
   ("ctr_7d", ["ctr 7d %", "ctr 7d", "ctr last 7 days"]),
   ("ctr_prev_7d", ["ctr prev7 %", "ctr prev 7d", "ctr previous 7 days"]),
   ("ctr_drop", ["ctr drop vs prev7 %", "ctr drop", "ctr decline"]),
   ("status", ["status", "state", "ad status"])]

/-- Python `str.lower()` followed by `str.strip()`. -/
def pyLowerStrip (s : String) : String :=
  String.mk (pyStrip (s.toList.map Char.toLower))

/-- One step of the fuzzy-match loop: exact alias membership first, then
bidirectional substring containment, first canonical field wins. -/
def fuzzyScan (cl : String) : List (String × List String) → Option String
  | [] => Option.none
  | (standard, variations) :: rest =>
    if variations.contains cl then some standard
    else if variations.any (fun v => pySubstr v cl || pySubstr cl v) then
      some standard
    else fuzzyScan cl rest

/-- `ColumnMapper.fuzzy_match`. -/
def fuzzy_match (column : String) : Option String :=
  fuzzyScan (pyLowerStrip column) STANDARD_COLUMNS

/-- The first pass of `map_columns_with_llm`: fold over the columns building
the fuzzy-matched mapping and the ordered list of unmapped columns. -/
def fuzzyPass (columns : List String) :
    List (String × String) × List String :=
  columns.foldl
    (fun acc col =>
      match fuzzy_match col with
      | some m => (dictInsert acc.1 col m, acc.2)
      | Option.none => (acc.1, acc.2 ++ [col]))
    ([], [])

/-- `ColumnMapper.map_columns_with_llm`.  The external LLM collaborator is a
parameter returning `none` when the call or the parse of its response fails
(the Python `except` branch), in which case every unmapped column is mapped
to the string `"unknown"`. -/
def map_columns_with_llm
    (llm : List String → Option (List (String × String)))
    (columns : List String) : List (String × String) :=
  let p := fuzzyPass columns
  if p.2.isEmpty then p.1
  else
    match llm p.2 with
    | some llm_mapping => dictUpdate p.1 llm_mapping
    | Option.none =>
      p.2.foldl (fun acc col => dictInsert acc col "unknown") p.1

/-- The reverse map built inside `normalize_data`: drop every column whose
mapped value is `"unknown"`. -/
def reverseMap (column_mapping : List (String × String)) :
    List (String × String) :=
  column_mapping.filter (fun p => p.2 ≠ "unknown")

/-- One row of `normalize_data`: rebuild the row dict, renaming each key
through the reverse map and leaving unmatched keys unchanged. -/
def normalize_row (reverse_map : List (String × String)) (row : Record) :
    Record :=
  row.foldl
    (fun new_row kv =>
      dictInsert new_row ((dlookup reverse_map kv.1).getD kv.1) kv.2)
    []

/-- `ColumnMapper.normalize_data` in its provided-mapping branch (the engine
always passes an explicit mapping; auto-detection only computes one via
`map_columns_with_llm` first). -/
def normalize_data (data : List Record)
    (column_mapping : List (String × String)) : List Record :=
  if data.isEmpty then []
  else data.map (normalize_row (reverseMap column_mapping))

end ColumnMapper

/-- The §8 status-cascade record `{roas: 0.5, spend: 100, frequency: 6, ctr: 0.2}`. -/
def cascadeRecord : Record :=
  [("roas", Value.num 0.5), ("spend", Value.num 100),
   ("frequency", Value.num 6), ("ctr", Value.num 0.2)]

/-- The §8 end-to-end scenario record. -/
def endToEndRecord : Record :=
  [("spend", Value.num 1500), ("roas", Value.num 1.8), ("ctr", Value.num 1.6),
   ("frequency", Value.num 2.8), ("impressions", Value.num 75000),
   ("purchases", Value.num 45), ("purchase_value", Value.num 2700),
   ("add_to_cart", Value.num 120), ("atc_to_purchase", Value.num 37.5)]

/-- C1: whenever the coerced roas is below 1.0 and the coerced spend exceeds
50, `decide_status` answers `pause` with the single issue
`"Unprofitable: ROAS <value>"`, whatever the record's other fields and
whatever findings are supplied — guard 1 of the cascade fires first. -/
theorem claim1_guard1_pause (row : Record)
    (insights : List InsightRecommendation)
    (h1 : _get_value row "roas" 0 < 1.0)
    (h2 : _get_value row "spend" 0 > 50) :
    (StatusDecisionAgent.decide_status row insights).status = AdStatus.pause ∧
    (StatusDecisionAgent.decide_status row insights).issues =
      ["Unprofitable: ROAS " ++ fmt2 (_get_value row "roas" 0)] := by
  simp [StatusDecisionAgent.decide_status, StatusDecisionAgent.cascade, h1, h2]

/-- C1 witness: the record `{roas: 0.5, spend: 100, frequency: 6, ctr: 0.2}`
— which also satisfies guard 2 — still gets the guard-1 pause. -/
theorem claim1_guard1_pause_witness :
    (StatusDecisionAgent.decide_status cascadeRecord []).status = AdStatus.pause ∧
    (StatusDecisionAgent.decide_status cascadeRecord []).issues =
      ["Unprofitable: ROAS 0.50"] := by
  have h := claim1_guard1_pause cascadeRecord []
    (by with_unfolding_all decide) (by with_unfolding_all decide)
  exact ⟨h.1, by rw [h.2]; with_unfolding_all rfl⟩

/-- C2: in the ROAS analyzer, roas = 1.0 and roas = 2.0 each yield the
high-priority "1-2 range" finding (inclusive bounds), roas = 2.0001 and
roas = 3.0 yield no finding, and roas = 3.0001 yields the medium-priority
high-performance finding. -/
theorem claim2_roas_boundaries :
    (ROASAgent.analyze [[("roas", Value.num 1.0)]]).map
        (fun f => (f.condition, f.priority)) =
      [("ROAS 1.00 (1-2 range)", "high")] ∧
    (ROASAgent.analyze [[("roas", Value.num 2.0)]]).map
        (fun f => (f.condition, f.priority)) =
      [("ROAS 2.00 (1-2 range)", "high")] ∧
    ROASAgent.analyze [[("roas", Value.num 2.0001)]] = [] ∧
    ROASAgent.analyze [[("roas", Value.num 3.0)]] = [] ∧
    (ROASAgent.analyze [[("roas", Value.num 3.0001)]]).map
        (fun f => (f.condition, f.priority)) =
      [("ROAS 3.00 (high performance)", "medium")] := by
  refine ⟨?_, ?_, ?_, ?_, ?_⟩ <;> with_unfolding_all decide

/-- C8: the §8 end-to-end record yields exactly one high-priority ROAS
"1-2 range" finding, no CTR finding, one low-priority "Strong ATC→Purchase
rate" conversion finding, no frequency finding, and status `test`. -/
theorem claim8_end_to_end :
    (ROASAgent.analyze [endToEndRecord]).map
        (fun f => (pySubstr "1-2 range" f.condition, f.priority)) =
      [(true, "high")] ∧
    CTRAgent.analyze [endToEndRecord] = [] ∧
    (ConversionAgent.analyze [endToEndRecord]).map
        (fun f => (pySubstr "Strong ATC→Purchase rate" f.condition, f.priority)) =
      [(true, "low")] ∧
    FrequencyAgent.analyze [endToEndRecord] = [] ∧
    (StatusDecisionAgent.decide_status endToEndRecord
        (InsightGraph.all_insights (ROASAgent.analyze [endToEndRecord])
          (CTRAgent.analyze [endToEndRecord])
          (ConversionAgent.analyze [endToEndRecord])
          (FrequencyAgent.analyze [endToEndRecord]))).status =
      AdStatus.test := by
  refine ⟨?_, ?_, ?_, ?_, ?_⟩ <;> with_unfolding_all decide

/-- C9: `decide_status` never returns more than five recommendations, and
when the matched cascade branch populated none, the recommendations are
exactly the recommendation strings of the first three findings associated
with the record, in their order in the supplied finding list. -/
theorem claim9_recommendation_defaults (row : Record)
    (insights : List InsightRecommendation) :
    (StatusDecisionAgent.decide_status row insights).recommendations.length ≤ 5 ∧
    ((StatusDecisionAgent.cascade (_get_value row "roas" 0)
        (_get_value row "ctr" 0) (_get_value row "spend" 0)
        (_get_value row "frequency" 0)
        (StatusDecisionAgent.adInsightsFor row insights)).2.1 = [] →
      (StatusDecisionAgent.decide_status row insights).recommendations =
        ((StatusDecisionAgent.adInsightsFor row insights).take 3).map
          (fun i => i.recommendation)) := by
  constructor
  · simp only [StatusDecisionAgent.decide_status, List.length_take]
    exact min_le_left _ _
  · intro h
    simp only [StatusDecisionAgent.decide_status, h, if_pos]
    apply List.take_of_length_le
    simp only [List.length_map, List.length_take]
    omega

/-- A high-priority finding attached to the ad id `"unknown"`. -/
def unknownAdFinding : InsightRecommendation :=
  { category := .roas, condition := "c", recommendation := "r1",
    priority := "high", affected_ads := ["unknown"], metrics := [] }

/-- C9 witness: on the pause-branch record (which populates no
recommendations) with one associated finding, the decision's
recommendations are that finding's recommendation string. -/
theorem claim9_recommendation_defaults_witness :
    (StatusDecisionAgent.decide_status cascadeRecord
        [unknownAdFinding]).recommendations.length ≤ 5 ∧
    (StatusDecisionAgent.decide_status cascadeRecord
        [unknownAdFinding]).recommendations = ["r1"] := by
  have h := claim9_recommendation_defaults cascadeRecord [unknownAdFinding]
  refine ⟨h.1, ?_⟩
  rw [h.2 (by with_unfolding_all rfl)]
  with_unfolding_all rfl

namespace InsightGraph

theorem rank_cases (i : InsightRecommendation) :
    rank i = 0 ∨ rank i = 1 ∨ rank i = 2 ∨ rank i = 3 := by
  unfold rank
  split_ifs <;> simp

theorem insertRanked_append (a : InsightRecommendation)
    (xs ys : List InsightRecommendation)
    (h : ∀ b ∈ xs, rank b < rank a) :
    insertRanked a (xs ++ ys) = xs ++ insertRanked a ys := by
  induction xs with
  | nil => simp
  | cons b bs ih =>
    simp only [List.cons_append, insertRanked, List.append_eq]
    rw [if_pos (h b (by simp)), ih (fun c hc => h c (by simp [hc]))]

theorem insertRanked_front (a : InsightRecommendation)
    (ys : List InsightRecommendation)
    (h : ∀ b ∈ ys, ¬ rank b < rank a) :
    insertRanked a ys = a :: ys := by
  cases ys with
  | nil => rfl
  | cons b bs =>
    simp only [insertRanked]
    rw [if_neg (h b (by simp))]

theorem mem_filter_rank {n : ℕ} {l : List InsightRecommendation}
    {b : InsightRecommendation}
    (hb : b ∈ l.filter (fun i => rank i == n)) : rank b = n := by
  have := List.of_mem_filter hb
  simpa using this

/-- The stable insertion sort on priority ranks sends every list to the
concatenation of its rank-0, rank-1, rank-2 and rank-3 sublists, each in
original order: it is sorted by rank and stable. -/
theorem sortByPriority_eq_filters (l : List InsightRecommendation) :
    sortByPriority l =
      l.filter (fun i => rank i == 0) ++ l.filter (fun i => rank i == 1) ++
      l.filter (fun i => rank i == 2) ++ l.filter (fun i => rank i == 3) := by
  induction l with
  | nil => rfl
  | cons a l ih =>
    show insertRanked a (sortByPriority l) = _
    rw [ih]
    rcases rank_cases a with h | h | h | h
    · rw [insertRanked_front a _ ?front]
      case front =>
        intro b hb
        rw [h]
        omega
      simp [List.filter_cons, h]
    · rw [List.append_assoc, List.append_assoc,
        insertRanked_append a _ _ ?lt, insertRanked_front a _ ?front]
      case lt =>
        intro b hb
        rw [h, mem_filter_rank hb]
        omega
      case front =>
        intro b hb
        simp only [List.mem_append] at hb
        rw [h]
        rcases hb with hb | hb | hb <;> rw [mem_filter_rank hb] <;> omega
      simp [List.filter_cons, h]
    · rw [List.append_assoc, List.append_assoc,
        insertRanked_append a _ _ ?lt0]
      case lt0 =>
        intro b hb
        rw [h, mem_filter_rank hb]
        omega
      rw [List.append_assoc, insertRanked_append a _ _ ?lt1,
        insertRanked_front a _ ?front]
      case lt1 =>
        intro b hb
        rw [h, mem_filter_rank hb]
        omega
      case front =>
        intro b hb
        simp only [List.mem_append] at hb
        rw [h]
        rcases hb with hb | hb <;> rw [mem_filter_rank hb] <;> omega
      simp [List.filter_cons, h, List.append_assoc]
    · rw [insertRanked_append a _ _ ?lt, insertRanked_front a _ ?front]
      case lt =>
        intro b hb
        simp only [List.mem_append] at hb
        rw [h]
        rcases hb with (hb | hb) | hb <;> rw [mem_filter_rank hb] <;> omega
      case front =>
        intro b hb
        rw [h, mem_filter_rank hb]
        omega
      simp [List.filter_cons, h, List.append_assoc]

end InsightGraph

/-- A low-priority example finding for the aggregation-order scenario. -/
def exLow : InsightRecommendation :=
  { category := .conversion, condition := "low finding", recommendation := "rl",
    priority := "low", affected_ads := ["a"], metrics := [] }

/-- The first high-priority example finding. -/
def exHigh1 : InsightRecommendation :=
  { category := .roas, condition := "first high finding", recommendation := "rh1",
    priority := "high", affected_ads := ["a"], metrics := [] }

/-- A medium-priority example finding. -/
def exMed : InsightRecommendation :=
  { category := .ctr, condition := "medium finding", recommendation := "rm",
    priority := "medium", affected_ads := ["a"], metrics := [] }

/-- The second high-priority example finding. -/
def exHigh2 : InsightRecommendation :=
  { category := .frequency, condition := "second high finding", recommendation := "rh2",
    priority := "high", affected_ads := ["a"], metrics := [] }

/-- A finding with an unrecognized priority string. -/
def exWeird : InsightRecommendation :=
  { category := .spend, condition := "weird finding", recommendation := "rw",
    priority := "urgent", affected_ads := ["a"], metrics := [] }

/-- C3: merging concatenates the four analyzers' outputs in the fixed order
ROAS, CTR, Conversion, Frequency and stable-sorts by priority rank
(high, medium, low, then unrecognized): the result is exactly the rank-0
findings in original order, then the rank-1, rank-2 and rank-3 findings.
In particular priorities [low, high, medium, high] sort to
[high, high, medium, low] with the two highs in concatenation order, and an
unrecognized priority sorts last. -/
theorem claim3_stable_priority_sort :
    (∀ roas_insights ctr_insights conversion_insights frequency_insights :
        List InsightRecommendation,
      InsightGraph.all_insights roas_insights ctr_insights conversion_insights
          frequency_insights =
        (roas_insights ++ ctr_insights ++ conversion_insights ++
            frequency_insights).filter (fun i => InsightGraph.rank i == 0) ++
        (roas_insights ++ ctr_insights ++ conversion_insights ++
            frequency_insights).filter (fun i => InsightGraph.rank i == 1) ++
        (roas_insights ++ ctr_insights ++ conversion_insights ++
            frequency_insights).filter (fun i => InsightGraph.rank i == 2) ++
        (roas_insights ++ ctr_insights ++ conversion_insights ++
            frequency_insights).filter (fun i => InsightGraph.rank i == 3)) ∧
    InsightGraph.all_insights [exLow] [exHigh1] [exMed] [exHigh2] =
      [exHigh1, exHigh2, exMed, exLow] ∧
    InsightGraph.all_insights [exWeird] [exLow] [] [] = [exLow, exWeird] := by
  refine ⟨?_, by rfl, by rfl⟩
  intro r c v f
  exact InsightGraph.sortByPriority_eq_filters (r ++ c ++ v ++ f)

/-- A dataset whose summed spend is negative. -/
def negSpendData : List Record :=
  [[("spend", Value.num (-10)), ("purchase_value", Value.num 5)]]

/-- A dataset with positive spend and impressions sums. -/
def posData : List Record :=
  [[("spend", Value.num 2), ("purchase_value", Value.num 3),
    ("impressions", Value.num 4), ("clicks", Value.num 1)]]

/-- C4 counterexample: with a negative spend sum, `total_spend` is nonzero
yet `overall_roas` is the guard value 0, not `total_revenue / total_spend`
(the code's guard is `total_spend > 0`, not `total_spend != 0`). -/
theorem claim4_counterexample :
    (InsightGraph.metrics_overview negSpendData).total_spend ≠ 0 ∧
    (InsightGraph.metrics_overview negSpendData).overall_roas ≠
      (InsightGraph.metrics_overview negSpendData).total_revenue /
        (InsightGraph.metrics_overview negSpendData).total_spend := by
  with_unfolding_all decide

/-- C4 (amended): the account-level ratios never divide by zero — whenever
the summed spend is zero (or negative) `overall_roas` is 0, and only a
strictly positive spend sum produces the quotient; likewise for
`overall_ctr` over the impressions sum. -/
theorem claim4_division_guards (data : List Record) :
    ((InsightGraph.metrics_overview data).total_spend ≤ 0 →
      (InsightGraph.metrics_overview data).overall_roas = 0) ∧
    (0 < (InsightGraph.metrics_overview data).total_spend →
      (InsightGraph.metrics_overview data).overall_roas =
        (InsightGraph.metrics_overview data).total_revenue /
          (InsightGraph.metrics_overview data).total_spend) ∧
    ((InsightGraph.metrics_overview data).total_impressions ≤ 0 →
      (InsightGraph.metrics_overview data).overall_ctr = 0) ∧
    (0 < (InsightGraph.metrics_overview data).total_impressions →
      (InsightGraph.metrics_overview data).overall_ctr =
        (InsightGraph.metrics_overview data).total_clicks /
          (InsightGraph.metrics_overview data).total_impressions * 100) := by
  simp only [InsightGraph.metrics_overview]
  refine ⟨?_, ?_, ?_, ?_⟩ <;> intro h
  · rw [if_neg (by linarith)]
  · rw [if_pos h]
  · rw [if_neg (by linarith)]
  · rw [if_pos h]

/-- C4 witness: the empty dataset takes both zero guards; a dataset with
spend sum 2, revenue 3, impressions 4 and clicks 1 takes both quotients. -/
theorem claim4_division_guards_witness :
    (InsightGraph.metrics_overview []).overall_roas = 0 ∧
    (InsightGraph.metrics_overview []).overall_ctr = 0 ∧
    (InsightGraph.metrics_overview posData).overall_roas = 3 / 2 ∧
    (InsightGraph.metrics_overview posData).overall_ctr = 25 := by
  refine ⟨(claim4_division_guards []).1 (by with_unfolding_all decide),
    (claim4_division_guards []).2.2.1 (by with_unfolding_all decide), ?_, ?_⟩
  · rw [(claim4_division_guards posData).2.1 (by with_unfolding_all decide)]
    with_unfolding_all decide
  · rw [(claim4_division_guards posData).2.2.2 (by with_unfolding_all decide)]
    with_unfolding_all decide

/-- C5: value coercion is total and silent — a stored string is cleaned of
`%`, `,` and surrounding whitespace then parsed, with the caller's default
on parse failure; a missing key or a stored `None` yields the default; in
particular `"  1,234.5% "` coerces to 1234.5 and `"abc"` to the default. -/
theorem claim5_value_coercion :
    (∀ (row : Record) (key : String) (d : ℚ) (s : String),
      dlookup row key = some (Value.str s) →
      _get_value row key d = (pyFloatOfChars (pyClean s)).getD d) ∧
    (∀ (row : Record) (key : String) (d : ℚ),
      dlookup row key = Option.none → _get_value row key d = d) ∧
    (∀ (row : Record) (key : String) (d : ℚ),
      dlookup row key = some Value.null → _get_value row key d = d) ∧
    _get_value [("v", Value.str "  1,234.5% ")] "v" 0 = 1234.5 ∧
    _get_value [("v", Value.str "abc")] "v" 7 = 7 ∧
    _get_value [] "v" 7 = 7 := by
  refine ⟨?_, ?_, ?_, by with_unfolding_all rfl,
    by with_unfolding_all rfl, by with_unfolding_all rfl⟩
  · intro row key d s h
    simp only [_get_value, h]
    cases pyFloatOfChars (pyClean s) <;> rfl
  · intro row key d h
    simp only [_get_value, h]
  · intro row key d h
    simp only [_get_value, h]

/-- C5 witness: the string-coercion equation applied at a stored `"2"`, the
missing-key equation at the empty row, and the `None` equation. -/
theorem claim5_value_coercion_witness :
    _get_value [("k", Value.str "2")] "k" 5 =
      (pyFloatOfChars (pyClean "2")).getD 5 ∧
    _get_value ([] : Record) "k" 5 = 5 ∧
    _get_value [("k", Value.null)] "k" 5 = 5 := by
  refine ⟨claim5_value_coercion.1 _ _ _ _ (by with_unfolding_all rfl),
    claim5_value_coercion.2.1 _ _ _ (by with_unfolding_all rfl),
    claim5_value_coercion.2.2.1 _ _ _ (by with_unfolding_all rfl)⟩

/-- C6 counterexample: the canonical column name `"ad_id"` does not fuzzy
match to itself — the alias `"ad"` of the earlier canonical field
`ad_name` is a substring of `"ad_id"`, so the scan returns `ad_name`
first. -/
theorem claim6_counterexample :
    ColumnMapper.fuzzy_match "ad_id" ≠ some "ad_id" ∧
    ColumnMapper.fuzzy_match "ad_id" = some "ad_name" := by
  with_unfolding_all decide

/-- C6 (amended): fuzzy matching maps a canonical name to itself only for
campaign_name, ad_set_name, ad_name, spend, impressions, clicks, ctr,
frequency, roas, purchases and status; the remaining canonical names are
captured by substring aliases of earlier fields — ad_id and add_to_cart
map to ad_name, purchase_value and atc_to_purchase map to purchases, and
ctr_7d, ctr_prev_7d and ctr_drop map to ctr — so the normalizer is not the
identity on all canonical keys. -/
theorem claim6_canonical_fuzzy_matches :
    ColumnMapper.fuzzy_match "campaign_name" = some "campaign_name" ∧
    ColumnMapper.fuzzy_match "ad_set_name" = some "ad_set_name" ∧
    ColumnMapper.fuzzy_match "ad_name" = some "ad_name" ∧
    ColumnMapper.fuzzy_match "ad_id" = some "ad_name" ∧
    ColumnMapper.fuzzy_match "spend" = some "spend" ∧
    ColumnMapper.fuzzy_match "impressions" = some "impressions" ∧
    ColumnMapper.fuzzy_match "clicks" = some "clicks" ∧
    ColumnMapper.fuzzy_match "ctr" = some "ctr" ∧
    ColumnMapper.fuzzy_match "frequency" = some "frequency" ∧
    ColumnMapper.fuzzy_match "roas" = some "roas" ∧
    ColumnMapper.fuzzy_match "purchases" = some "purchases" ∧
    ColumnMapper.fuzzy_match "purchase_value" = some "purchases" ∧
    ColumnMapper.fuzzy_match "add_to_cart" = some "ad_name" ∧
    ColumnMapper.fuzzy_match "atc_to_purchase" = some "purchases" ∧
    ColumnMapper.fuzzy_match "ctr_7d" = some "ctr" ∧
    ColumnMapper.fuzzy_match "ctr_prev_7d" = some "ctr" ∧
    ColumnMapper.fuzzy_match "ctr_drop" = some "ctr" ∧
    ColumnMapper.fuzzy_match "status" = some "status" := by
  with_unfolding_all decide

namespace ROASAgent

theorem roas_row_affected (row : Record) (f : InsightRecommendation)
    (hf : f ∈ analyzeRow row) : f.affected_ads = [adIdOf row] := by
  simp only [analyzeRow] at hf
  split_ifs at hf <;> simp_all

end ROASAgent

namespace CTRAgent

theorem ctr_row_affected (row : Record) (f : InsightRecommendation)
    (hf : f ∈ analyzeRow row) : f.affected_ads = [adIdOf row] := by
  simp only [analyzeRow] at hf
  split_ifs at hf <;> simp_all

end CTRAgent

namespace ConversionAgent

theorem conversion_row_affected (row : Record) (f : InsightRecommendation)
    (hf : f ∈ analyzeRow row) : f.affected_ads = [adIdOf row] := by
  simp only [analyzeRow] at hf
  split_ifs at hf <;> simp_all

end ConversionAgent

namespace FrequencyAgent

theorem frequency_row_affected (row : Record) (f : InsightRecommendation)
    (hf : f ∈ analyzeRow row) : f.affected_ads = [adIdOf row] := by
  simp only [analyzeRow] at hf
  split_ifs at hf <;> simp_all

end FrequencyAgent

/-- C10: every finding emitted by any of the four analyzers carries an
affected-ads list that is exactly the singleton holding the string form of
the originating record's `ad_id` (`"unknown"` when the key is absent). -/
theorem claim10_affected_ads_singleton :
    (∀ (data : List Record) (f : InsightRecommendation),
      f ∈ ROASAgent.analyze data →
      ∃ row, row ∈ data ∧ f.affected_ads = [adIdOf row]) ∧
    (∀ (data : List Record) (f : InsightRecommendation),
      f ∈ CTRAgent.analyze data →
      ∃ row, row ∈ data ∧ f.affected_ads = [adIdOf row]) ∧
    (∀ (data : List Record) (f : InsightRecommendation),
      f ∈ ConversionAgent.analyze data →
      ∃ row, row ∈ data ∧ f.affected_ads = [adIdOf row]) ∧
    (∀ (data : List Record) (f : InsightRecommendation),
      f ∈ FrequencyAgent.analyze data →
      ∃ row, row ∈ data ∧ f.affected_ads = [adIdOf row]) := by
  refine ⟨?_, ?_, ?_, ?_⟩ <;> intro data f hf
  · obtain ⟨row, hrow, hmem⟩ := List.mem_flatMap.mp hf
    exact ⟨row, hrow, ROASAgent.roas_row_affected row f hmem⟩
  · obtain ⟨row, hrow, hmem⟩ := List.mem_flatMap.mp hf
    exact ⟨row, hrow, CTRAgent.ctr_row_affected row f hmem⟩
  · obtain ⟨row, hrow, hmem⟩ := List.mem_flatMap.mp hf
    exact ⟨row, hrow, ConversionAgent.conversion_row_affected row f hmem⟩
  · obtain ⟨row, hrow, hmem⟩ := List.mem_flatMap.mp hf
    exact ⟨row, hrow, FrequencyAgent.frequency_row_affected row f hmem⟩

/-- The record used in the C10 witness. -/
def namedAdRecord : Record :=
  [("ad_id", Value.str "a7"), ("roas", Value.num 1.5)]

/-- The finding the ROAS analyzer emits for `namedAdRecord`. -/
def namedAdFinding : InsightRecommendation :=
  { category := .roas,
    condition := "ROAS 1.50 (1-2 range)",
    recommendation := "Test 2-3 new hooks/thumbnails; rotate in new ad creative; cap frequency to avoid fatigue",
    priority := "high",
    affected_ads := ["a7"],
    metrics := [("roas", 1.5), ("spend", 0), ("frequency", 0)] }

/-- C10 witness: the finding produced for a record with `ad_id` `"a7"` has
affected-ads `["a7"]`, the string form of that record's id. -/
theorem claim10_affected_ads_singleton_witness :
    ∃ row, row ∈ [namedAdRecord] ∧
      namedAdFinding.affected_ads = [adIdOf row] := by
  exact claim10_affected_ads_singleton.1 [namedAdRecord] namedAdFinding
    (by with_unfolding_all decide)

theorem dlookup_eq_none_of_not_mem_keys {α : Type} {d : List (String × α)}
    {k : String} (h : k ∉ d.map Prod.fst) : dlookup d k = Option.none := by
  induction d with
  | nil => rfl
  | cons p d ih =>
    simp only [List.map_cons, List.mem_cons, not_or] at h
    simp only [dlookup]
    rw [if_neg (by simp [beq_iff_eq]; exact fun hq => h.1 hq.symm)]
    exact ih h.2

theorem dlookup_replaceMap {α : Type} (d : List (String × α)) (q k : String)
    (v : α) (h : (q == k) = false) :
    dlookup (d.map (fun p => if p.1 == q then (q, v) else p)) k =
      dlookup d k := by
  induction d with
  | nil => rfl
  | cons p d ih =>
    by_cases hp : (p.1 == q) = true
    · have hpq : p.1 = q := by simpa using hp
      have h2 : (p.1 == k) = false := by rw [hpq]; exact h
      simp only [List.map_cons, hp, if_true, dlookup, h, h2,
        Bool.false_eq_true, if_false, ih]
    · simp only [List.map_cons, hp, if_false, Bool.false_eq_true, dlookup, ih]

theorem dlookup_replaceMap_self {α : Type} (d : List (String × α))
    (q : String) (v : α) (h : d.any (fun p => p.1 == q) = true) :
    dlookup (d.map (fun p => if p.1 == q then (q, v) else p)) q = some v := by
  induction d with
  | nil => simp at h
  | cons p d ih =>
    by_cases hp : (p.1 == q) = true
    · simp only [List.map_cons, hp, if_true, dlookup, beq_self_eq_true,
        if_true]
    · simp only [List.any_cons, hp, Bool.false_or] at h
      simp only [List.map_cons, hp, if_false, Bool.false_eq_true, dlookup,
        ih h]

theorem dlookup_append {α : Type} (d1 d2 : List (String × α)) (k : String) :
    dlookup (d1 ++ d2) k =
      match dlookup d1 k with
      | some v => some v
      | Option.none => dlookup d2 k := by
  induction d1 with
  | nil => rfl
  | cons p d ih =>
    by_cases hp : (p.1 == k) = true
    · simp only [List.cons_append, dlookup, hp, if_true]
    · simp only [List.cons_append, dlookup, hp, if_false,
        Bool.false_eq_true, List.append_eq, ih]

theorem dlookup_dictInsert {α : Type} (d : List (String × α)) (q k : String)
    (v : α) :
    dlookup (dictInsert d q v) k =
      if q == k then some v else dlookup d k := by
  by_cases hq : (q == k) = true
  · have hqk : q = k := by simpa using hq
    subst hqk
    rw [if_pos hq]
    by_cases hany : d.any (fun p => p.1 == q) = true
    · simp only [dictInsert, hany, if_true]
      exact dlookup_replaceMap_self d q v hany
    · simp only [dictInsert, hany, if_false, Bool.false_eq_true]
      rw [dlookup_append]
      have hnone : dlookup d q = Option.none := by
        apply dlookup_eq_none_of_not_mem_keys
        intro hm
        apply hany
        rw [List.any_eq_true]
        obtain ⟨p, hp, hpk⟩ := List.mem_map.mp hm
        exact ⟨p, hp, by simp [hpk]⟩
      rw [hnone]
      simp [dlookup]
  · rw [if_neg hq]
    by_cases hany : d.any (fun p => p.1 == q) = true
    · simp only [dictInsert, hany, if_true]
      exact dlookup_replaceMap d q k v (by simpa using hq)
    · simp only [dictInsert, hany, if_false, Bool.false_eq_true]
      rw [dlookup_append]
      cases hd : dlookup d k
      · simp [dlookup, hq]
      · rfl

theorem dlookup_foldl_unknown_of_not_mem (ks : List String)
    (d : List (String × String)) (k : String) (h : k ∉ ks) :
    dlookup (ks.foldl (fun acc col => dictInsert acc col "unknown") d) k =
      dlookup d k := by
  induction ks generalizing d with
  | nil => rfl
  | cons c ks ih =>
    simp only [List.mem_cons, not_or] at h
    simp only [List.foldl_cons]
    rw [ih _ h.2, dlookup_dictInsert,
      if_neg (by simp only [beq_iff_eq]; exact fun hq => h.1 hq.symm)]

theorem dlookup_foldl_unknown_of_mem (ks : List String)
    (d : List (String × String)) (k : String) (h : k ∈ ks) :
    dlookup (ks.foldl (fun acc col => dictInsert acc col "unknown") d) k =
      some "unknown" := by
  induction ks generalizing d with
  | nil => simp at h
  | cons c ks ih =>
    simp only [List.foldl_cons]
    by_cases hm : k ∈ ks
    · exact ih _ hm
    · have hck : c = k := by
        rcases List.mem_cons.mp h with h1 | h1
        · exact h1.symm
        · exact absurd h1 hm
      rw [dlookup_foldl_unknown_of_not_mem ks _ k hm, dlookup_dictInsert,
        if_pos (by simp [hck])]

theorem fuzzyPass_foldl_snd (columns : List String)
    (m : List (String × String)) (u : List String) :
    (columns.foldl
      (fun acc col =>
        match ColumnMapper.fuzzy_match col with
        | some mm => (dictInsert acc.1 col mm, acc.2)
        | Option.none => (acc.1, acc.2 ++ [col])) (m, u)).2 =
      u ++ columns.filter (fun c => (ColumnMapper.fuzzy_match c).isNone) := by
  induction columns generalizing m u with
  | nil => simp
  | cons c cols ih =>
    simp only [List.foldl_cons]
    cases hc : ColumnMapper.fuzzy_match c with
    | none =>
      simp only [hc, ih, List.filter_cons, Option.isNone_none, if_true]
      simp
    | some mm =>
      simp only [hc, ih, List.filter_cons, Option.isNone_some,
        Bool.false_eq_true, if_false]

theorem fuzzyPass_snd (columns : List String) :
    (ColumnMapper.fuzzyPass columns).2 =
      columns.filter (fun c => (ColumnMapper.fuzzy_match c).isNone) := by
  unfold ColumnMapper.fuzzyPass
  rw [fuzzyPass_foldl_snd columns [] []]
  rfl

theorem dlookup_reverseMap_none (mapping : List (String × String))
    (k : String) (hnd : (mapping.map Prod.fst).Nodup)
    (hu : dlookup mapping k = some "unknown" ∨
      dlookup mapping k = Option.none) :
    dlookup (ColumnMapper.reverseMap mapping) k = Option.none := by
  induction mapping with
  | nil => rfl
  | cons p m ih =>
    simp only [List.map_cons, List.nodup_cons] at hnd
    by_cases hp : (p.1 == k) = true
    · have hpk : p.1 = k := by simpa using hp
      have hv : p.2 = "unknown" := by
        rcases hu with hu | hu <;> simp only [dlookup, hp, if_true] at hu
        · exact Option.some.inj hu
        · cases hu
      have hdrop : (decide (p.2 ≠ "unknown")) = false := by simp [hv]
      simp only [ColumnMapper.reverseMap, List.filter_cons, hdrop,
        Bool.false_eq_true, if_false]
      apply dlookup_eq_none_of_not_mem_keys
      intro hm
      obtain ⟨q, hq, hqk⟩ := List.mem_map.mp hm
      apply hnd.1
      rw [hpk, ← hqk]
      exact List.mem_map_of_mem Prod.fst (List.mem_of_mem_filter hq)
    · have hu2 : dlookup m k = some "unknown" ∨
          dlookup m k = Option.none := by
        rcases hu with hu | hu <;>
          simp only [dlookup, hp, Bool.false_eq_true, if_false] at hu
        · exact Or.inl hu
        · exact Or.inr hu
      cases hkeep : (decide (p.2 ≠ "unknown")) with
      | false =>
        simp only [ColumnMapper.reverseMap, List.filter_cons, hkeep,
          Bool.false_eq_true, if_false]
        exact ih hnd.2 hu2
      | true =>
        simp only [ColumnMapper.reverseMap, List.filter_cons, hkeep, if_true,
          dlookup, hp, Bool.false_eq_true, if_false]
        exact ih hnd.2 hu2

theorem dlookup_normalize_fold_skip (rm : List (String × String))
    (k : String) (row : Record) (acc : Record)
    (h : ∀ q ∈ row, ((dlookup rm q.1).getD q.1) ≠ k) :
    dlookup (row.foldl (fun new_row kv =>
        dictInsert new_row ((dlookup rm kv.1).getD kv.1) kv.2) acc) k =
      dlookup acc k := by
  induction row generalizing acc with
  | nil => rfl
  | cons q row ih =>
    simp only [List.foldl_cons]
    rw [ih _ (fun r hr => h r (List.mem_cons_of_mem _ hr)),
      dlookup_dictInsert,
      if_neg (by
        simp only [beq_iff_eq]
        exact h q (List.mem_cons_self q row))]

theorem dlookup_normalize_fold (rm : List (String × String)) (k : String)
    (hk : dlookup rm k = Option.none) (row : Record) (acc : Record)
    (hrow : ∀ p ∈ row, p.1 ≠ k → ((dlookup rm p.1).getD p.1) ≠ k)
    (hnd : (row.map Prod.fst).Nodup) :
    dlookup (row.foldl (fun new_row kv =>
        dictInsert new_row ((dlookup rm kv.1).getD kv.1) kv.2) acc) k =
      (match dlookup row k with
       | some v => some v
       | Option.none => dlookup acc k) := by
  induction row generalizing acc with
  | nil => rfl
  | cons p row ih =>
    simp only [List.map_cons, List.nodup_cons] at hnd
    simp only [List.foldl_cons]
    by_cases hp : p.1 = k
    · have htgt : ((dlookup rm p.1).getD p.1) = k := by
        rw [hp, hk]
        rfl
      have hrow2 : ∀ q ∈ row, ((dlookup rm q.1).getD q.1) ≠ k := by
        intro q hq
        have hqk : q.1 ≠ k := by
          intro he
          apply hnd.1
          rw [hp, ← he]
          exact List.mem_map_of_mem Prod.fst hq
        exact hrow q (List.mem_cons_of_mem _ hq) hqk
      rw [dlookup_normalize_fold_skip rm k row _ hrow2, htgt,
        dlookup_dictInsert, if_pos (by simp)]
      have hpb : (p.1 == k) = true := by simp [hp]
      simp only [dlookup, hpb, if_true]
    · have htgt := hrow p (List.mem_cons_self p row) hp
      rw [ih _ (fun q hq hqk => hrow q (List.mem_cons_of_mem _ hq) hqk)
          hnd.2,
        dlookup_dictInsert,
        if_neg (by simp only [beq_iff_eq]; exact htgt)]
      have hpb : (p.1 == k) = false := by simp [hp]
      simp only [dlookup, hpb, Bool.false_eq_true, if_false]

theorem normalize_row_preserves (rm : List (String × String)) (row : Record)
    (k : String) (hk : dlookup rm k = Option.none)
    (hrow : ∀ p ∈ row, p.1 ≠ k → ((dlookup rm p.1).getD p.1) ≠ k)
    (hnd : (row.map Prod.fst).Nodup) :
    dlookup (ColumnMapper.normalize_row rm row) k = dlookup row k := by
  unfold ColumnMapper.normalize_row
  rw [dlookup_normalize_fold rm k hk row [] hrow hnd]
  cases hd : dlookup row k <;> rfl

/-- C7: when the external semantic-mapping collaborator fails, every column
left unresolved by fuzzy matching is mapped to `"unknown"` (the failure is
not propagated), and `normalize_data` leaves every column whose mapping is
`"unknown"` (or absent) under its original key in every normalized record
(for well-formed dict inputs: duplicate-free keys, and no other column
renamed onto that key). -/
theorem claim7_llm_failure_degrades :
    (∀ (columns : List String) (c : String), c ∈ columns →
      ColumnMapper.fuzzy_match c = Option.none →
      dlookup (ColumnMapper.map_columns_with_llm (fun _ => Option.none)
        columns) c = some "unknown") ∧
    (∀ (data : List Record) (mapping : List (String × String)) (row : Record)
        (k : String),
      row ∈ data →
      (dlookup mapping k = some "unknown" ∨
        dlookup mapping k = Option.none) →
      (mapping.map Prod.fst).Nodup →
      (∀ p ∈ row, p.1 ≠ k →
        ((dlookup (ColumnMapper.reverseMap mapping) p.1).getD p.1) ≠ k) →
      (row.map Prod.fst).Nodup →
      ColumnMapper.normalize_row (ColumnMapper.reverseMap mapping) row ∈
          ColumnMapper.normalize_data data mapping ∧
      dlookup (ColumnMapper.normalize_row (ColumnMapper.reverseMap mapping)
          row) k = dlookup row k) := by
  constructor
  · intro cols c hc hf
    have hunm : c ∈ (ColumnMapper.fuzzyPass cols).2 := by
      rw [fuzzyPass_snd, List.mem_filter]
      exact ⟨hc, by simp [hf]⟩
    have hne : ((ColumnMapper.fuzzyPass cols).2.isEmpty) ≠ true := by
      intro hempty
      rw [List.isEmpty_iff] at hempty
      rw [hempty] at hunm
      exact List.not_mem_nil c hunm
    simp only [ColumnMapper.map_columns_with_llm]
    rw [if_neg hne]
    exact dlookup_foldl_unknown_of_mem _ _ _ hunm
  · intro data mapping row k hmem hu hndm hrow hndr
    have hk := dlookup_reverseMap_none mapping k hndm hu
    constructor
    · unfold ColumnMapper.normalize_data
      have hne : data.isEmpty ≠ true := by
        cases data with
        | nil => exact absurd hmem (List.not_mem_nil row)
        | cons a l => simp
      rw [if_neg hne]
      exact List.mem_map_of_mem _ hmem
    · exact normalize_row_preserves _ row k hk hrow hndr

/-- A record whose only column has no fuzzy match. -/
def unknownColRecord : Record := [("zzz_metric", Value.num 5)]

/-- The mapping produced for that record's column after an LLM failure. -/
def unknownColMapping : List (String × String) := [("zzz_metric", "unknown")]

/-- C7 witness: with a failing collaborator, the unmatched column
`"zzz_metric"` is mapped to `"unknown"`, and normalization keeps its value
under the original key. -/
theorem claim7_llm_failure_degrades_witness :
    dlookup (ColumnMapper.map_columns_with_llm (fun _ => Option.none)
      ["zzz_metric"]) "zzz_metric" = some "unknown" ∧
    dlookup (ColumnMapper.normalize_row
      (ColumnMapper.reverseMap unknownColMapping) unknownColRecord)
      "zzz_metric" = some (Value.num 5) := by
  constructor
  · exact claim7_llm_failure_degrades.1 ["zzz_metric"] "zzz_metric"
      (by simp) (by with_unfolding_all rfl)
  · have h := (claim7_llm_failure_degrades.2 [unknownColRecord]
      unknownColMapping unknownColRecord "zzz_metric" (by simp)
      (Or.inl (by with_unfolding_all rfl)) (by with_unfolding_all decide)
      (by with_unfolding_all decide) (by with_unfolding_all decide)).2
    rw [h]
    with_unfolding_all rfl
